import Mathlib

/-!
# Verification of the Synapse Retrieval-Augmented Answering Engine

A shallow embedding, in Lean 4, of the core of the Synapse backend
(`backend/src/services/ragService.js`, the pure parts of
`webSearchService.js`, and the document-deletion flow), together with
theorems settling the specification claims about it.

Modelling conventions:
* JavaScript strings are `List Char` (called `Str` below).  The handful of
  string operations the source uses (`slice`, `trim`, `toLowerCase`,
  `includes`, `split(' ')`, `lastIndexOf`) are embedded with their
  ECMAScript semantics (negative-index clamping for `slice`, `''` is a
  substring of everything, etc.).  `trim` is modelled on the ASCII
  whitespace characters that actually occur in the development.
* JavaScript numbers are modelled as rationals `ℚ`, extended with the
  symbolic values `NaN`/`Infinity`/`-Infinity` (`JSNum`) where the source
  can actually produce them (the unguarded division in the lexical
  fallback score).  `Math.sin`, `Math.cos` and `Math.sqrt` are opaque
  functions `ℚ → ℚ` supplied by the environment: the source uses their
  values only as data, never branching on them in a way a claim depends on.
* 32-bit wrap-around (`hash & hash`, `<< 5`) is explicit arithmetic on `ℤ`
  (`toInt32`), not a machine-integer type.
* `async` collaborator calls that can reject (`model.generateContent`,
  `webSearchService.searchWeb`) are environment functions returning
  `Except Unit _`; the `try`/`catch` structure of the source is compiled
  into explicit `match`es on those results.
* Redis is a key-value list of entries; the JSON round trip through the
  answer cache (`JSON.stringify` on write / `JSON.parse` on read) is
  modelled by storing the structured `Answer` value, while
  `JSON.stringify` itself is embedded separately (`stringifyAnswer`) for
  the places where the source inspects the serialized text
  (`cached.includes(documentId)` in `deleteDocumentFromCache`).
* The `while` loop of `chunkDocument` is compiled to a fuel-indexed step
  function `chunkLoop`; `none` means "the loop has not finished within the
  given fuel", so "for every fuel the result is `none`" is exactly
  non-termination of the loop.
-/

/-! ## JavaScript string primitives -/

/-- A JavaScript string, as a list of UTF-16-ish characters. -/
abbrev Str := List Char

/-- The whitespace characters relevant to `String.prototype.trim` in this
development (JS trims all Unicode whitespace; only these occur here). -/
def isJsWs (c : Char) : Bool :=
  c = ' ' || c = '\t' || c = '\n' || c = '\r' || c = '\x0b' || c = '\x0c'

/-- `String.prototype.trim`: drop leading and trailing whitespace. -/
def jsTrim (s : Str) : Str :=
  ((s.dropWhile isJsWs).reverse.dropWhile isJsWs).reverse

/-- `String.prototype.toLowerCase` (ASCII range, which is all the source
feeds it). -/
def jsLower (s : Str) : Str := s.map Char.toLower

/-- Does `pat` occur at the very start of `s`?  (`String.prototype.startsWith`.) -/
def jsStartsWith : Str → Str → Bool
  | _, [] => true
  | [], _ :: _ => false
  | c :: s, p :: ps => c = p && jsStartsWith s ps

/-- `s.includes(pat)`: does `pat` occur contiguously anywhere in `s`?
As in JS, the empty pattern is contained in every string. -/
def jsIncludes (s pat : Str) : Bool :=
  match s with
  | [] => pat.isEmpty
  | _ :: rest => jsStartsWith s pat || jsIncludes rest pat

/-- `s.split(sep)` for a single-character separator, ECMAScript semantics:
`"a  b".split(' ') = ["a", "", "b"]`, `"".split(' ') = [""]`. -/
def jsSplitChar (sep : Char) : Str → List Str
  | [] => [[]]
  | c :: rest =>
    if c = sep then [] :: jsSplitChar sep rest
    else match jsSplitChar sep rest with
      | [] => [[c]]
      | w :: ws => (c :: w) :: ws

/-- Clamp one `slice` argument per ECMAScript: negative indices count from
the end, everything is clamped into `[0, len]`. -/
def jsSliceClamp (len : Nat) (i : Int) : Nat :=
  if i < 0 then (max ((len : Int) + i) 0).toNat else min i.toNat len

/-- `s.slice(a, b)` with ECMAScript index clamping. -/
def jsSlice (s : Str) (a b : Int) : Str :=
  (s.take (jsSliceClamp s.length b)).drop (jsSliceClamp s.length a)

/-- `s.lastIndexOf(pat)`: the largest index at which `pat` occurs in `s`,
or `-1`. -/
def jsLastIndexOf (s pat : Str) : Int :=
  match ((List.range (s.length + 1)).filter
      (fun i => jsStartsWith (s.drop i) pat)).getLast? with
  | some i => (i : Int)
  | none => -1

/-- Decimal rendering of a natural number (for `${i}` interpolations). -/
def natToStr (n : Nat) : Str := Nat.toDigits 10 n

/-! ## JavaScript number values

`JSNum` is a JS double as used by the similarity pipeline: a rational, or
one of the special values `NaN` / `Infinity` / `-Infinity` that the
unguarded division in the lexical fallback can produce. -/

inductive JSNum where
  | nan : JSNum
  | posInf : JSNum
  | negInf : JSNum
  | num : ℚ → JSNum
deriving DecidableEq, Repr

/-- JS multiplication on `JSNum` (only the cases the source can reach). -/
def jsMul : JSNum → JSNum → JSNum
  | .num a, .num b => .num (a * b)
  | .posInf, .num b => if b > 0 then .posInf else if b < 0 then .negInf else .nan
  | .num a, .posInf => if a > 0 then .posInf else if a < 0 then .negInf else .nan
  | .negInf, .num b => if b > 0 then .negInf else if b < 0 then .posInf else .nan
  | .num a, .negInf => if a > 0 then .negInf else if a < 0 then .posInf else .nan
  | .posInf, .posInf => .posInf
  | .negInf, .negInf => .posInf
  | .posInf, .negInf => .negInf
  | .negInf, .posInf => .negInf
  | .nan, _ => .nan
  | _, .nan => .nan

/-- JS division of two non-negative integer counts (the only division the
similarity code performs): `0/0` is `NaN`, `k/0` with `k > 0` is
`Infinity`. -/
def jsDivNat (a b : Nat) : JSNum :=
  if b = 0 then (if a = 0 then .nan else .posInf)
  else .num ((a : ℚ) / (b : ℚ))

/-- JS `>` comparison: any comparison involving `NaN` is false. -/
def jsGtB : JSNum → JSNum → Bool
  | .num a, .num b => a > b
  | .posInf, .num _ => true
  | .num _, .posInf => false
  | .negInf, .num _ => false
  | .num _, .negInf => true
  | .posInf, .negInf => true
  | .negInf, .posInf => false
  | .posInf, .posInf => false
  | .negInf, .negInf => false
  | .nan, _ => false
  | _, .nan => false

/-- `Math.max` on two values: `NaN` if either argument is `NaN`. -/
def jsMax2 : JSNum → JSNum → JSNum
  | .nan, _ => .nan
  | _, .nan => .nan
  | .posInf, _ => .posInf
  | _, .posInf => .posInf
  | .negInf, y => y
  | x, .negInf => x
  | .num a, .num b => .num (max a b)

/-- `Math.round`: JS rounds half up, i.e. `⌊x + 1/2⌋`. -/
def jsRound : JSNum → JSNum
  | .num a => .num ((⌊a + 1/2⌋ : ℤ) : ℚ)
  | x => x

/-- `Math.round(x * 100) / 100`, the 2-decimal rounding used when shaping
answer sources. -/
def jsRound2 (x : JSNum) : JSNum :=
  match jsRound (jsMul x (.num 100)) with
  | .num a => .num (a / 100)
  | y => y

/-! ## 32-bit wrap-around and `simpleHash` -/

/-- `ToInt32`: wrap an integer into the signed 32-bit range, as `x & x`
(or `<< 0`) does in JavaScript. -/
def toInt32 (n : ℤ) : ℤ := (n + 2 ^ 31) % 2 ^ 32 - 2 ^ 31

/-- One step of `simpleHash`'s loop:
`hash = ((hash << 5) - hash) + char; hash = hash & hash;`.
`hash << 5` first wraps `hash * 32` to 32 bits; the subtraction and
addition are then exact in doubles; the final `& hash` wraps again. -/
def simpleHashStep (h : ℤ) (c : Char) : ℤ :=
  toInt32 (toInt32 (h * 32) - h + (c.toNat : ℤ))

/-- `RAGService.simpleHash`: the rolling hash over the characters, with the
final `Math.abs`.  The `str.length === 0` early return yields `0`, which
coincides with the fold over the empty list. -/
def simpleHash (s : Str) : ℤ := |s.foldl simpleHashStep 0|

/-! ## The environment: documents and fallible collaborators -/

/-- A chunk as stored on a document (`{ text, index }`). -/
structure DChunk where
  text : Str
  index : Nat
deriving DecidableEq, Repr

/-- The fields of a `Document` record that the answering core reads. -/
structure Doc where
  id : Str
  originalName : Str
  fileType : Str
  status : Str
  chunks : List DChunk
deriving DecidableEq, Repr

/-- A web search result as returned by `webSearchService.searchWeb`. -/
structure WebResult where
  title : Str
  link : Str
  snippet : Str
  source : Str
deriving DecidableEq, Repr

/-- The collaborators of `generateAnswer`: the document store contents,
the numeric library functions, the generative model and the web-search
service.  `generate` and `searchWeb` return `Except Unit _`: `.error`
is a rejected promise. -/
structure Env where
  documents : List Doc
  sin : ℚ → ℚ
  cos : ℚ → ℚ
  sqrt : ℚ → ℚ
  generate : Str → Except Unit Str
  searchWeb : Str → Nat → Except Unit (List WebResult)

/-- `RAGService.generateEmbedding`: 384 components
`Math.sin(hash + i) * 0.1 + Math.cos(hash * 2 + i) * 0.05`.
The `try`/`catch` zero-vector fallback is unreachable in the model (the
body is total). -/
def generateEmbedding (env : Env) (text : Str) : List ℚ :=
  (List.range 384).map (fun i : Nat =>
    env.sin ((simpleHash text : ℚ) + (i : ℚ)) * (1/10)
      + env.cos ((simpleHash text : ℚ) * 2 + (i : ℚ)) * (1/20))

/-- `RAGService.cosineSimilarity`: dot product over the product of norms,
`0` on dimension mismatch, empty vectors, or a zero magnitude. -/
def cosineSimilarity (env : Env) (vecA vecB : List ℚ) : ℚ :=
  if vecA.length ≠ vecB.length ∨ vecA.length = 0 then 0
  else
    let dotProduct := ((vecA.zip vecB).map (fun p => p.1 * p.2)).sum
    let magnitudeA := env.sqrt ((vecA.map (fun a => a * a)).sum)
    let magnitudeB := env.sqrt ((vecB.map (fun b => b * b)).sum)
    if magnitudeA = 0 ∨ magnitudeB = 0 then 0
    else dotProduct / (magnitudeA * magnitudeB)

/-! ## The chunker -/

/-- An output chunk of `chunkDocument`. -/
structure Chunk where
  text : Str
  index : Nat
deriving DecidableEq, Repr

/-- The chunk text computed by one iteration of `chunkDocument`'s loop:
`text.slice(start, end).trim()`, shortened to the last sentence or
paragraph break when that keeps at least 70% of the window.
`breakPoint > chunkSize * 0.7` is embedded as
`breakPoint * 10 > 7 * chunkSize`, which agrees with the IEEE-double
comparison at the default `chunkSize = 800` (where `800 * 0.7` evaluates
to exactly `560`). -/
def chunkAt (text : Str) (chunkSize : Nat) (start : Int) : Str :=
  let endPos : Int := min (start + chunkSize) (text.length : Int)
  let chunk0 := jsTrim (jsSlice text start endPos)
  if endPos < (text.length : Int) then
    let sentenceEnd := jsLastIndexOf chunk0 ['.', ' ']
    let paragraphEnd := jsLastIndexOf chunk0 ['\n']
    let breakPoint := max sentenceEnd paragraphEnd
    if breakPoint * 10 > 7 * (chunkSize : Int) then
      jsTrim (jsSlice chunk0 0 (breakPoint + 1))
    else chunk0
  else chunk0

/-- `if (chunk.length > 0) chunks.push({text: chunk, index: index++})`. -/
def chunkPush (chunks : List Chunk) (index : Nat) (c : Str) : List Chunk :=
  if c.length > 0 then chunks ++ [⟨c, index⟩] else chunks

/-- The index after one iteration (`index++` only fires on a push). -/
def chunkNextIndex (index : Nat) (c : Str) : Nat :=
  if c.length > 0 then index + 1 else index

/-- The body of `chunkDocument`'s `while (start < text.length)` loop,
indexed by fuel; `none` means the loop has not finished within `fuel`
iterations.  `some` is produced either by the `while` condition failing or
by the `if (start >= text.length) break`. -/
def chunkLoop (text : Str) (chunkSize overlap : Nat) :
    Nat → Int → Nat → List Chunk → Option (List Chunk)
  | 0, _, _, _ => none
  | fuel + 1, start, index, chunks =>
    if start < (text.length : Int) then
      if start + ((chunkAt text chunkSize start).length : Int) - (overlap : Int)
          ≥ (text.length : Int) then
        some (chunkPush chunks index (chunkAt text chunkSize start))
      else
        chunkLoop text chunkSize overlap fuel
          (start + ((chunkAt text chunkSize start).length : Int) - (overlap : Int))
          (chunkNextIndex index (chunkAt text chunkSize start))
          (chunkPush chunks index (chunkAt text chunkSize start))
    else some chunks

/-- `RAGService.chunkDocument(text, chunkSize = 800, overlap = 150)`. -/
def chunkDocument (text : Str) (chunkSize : Nat := 800) (overlap : Nat := 150)
    (fuel : Nat := text.length + 1) : Option (List Chunk) :=
  if text.length ≤ chunkSize then some [⟨jsTrim text, 0⟩]
  else chunkLoop text chunkSize overlap fuel 0 0 []

section ChunkTests

example : chunkDocument "hello world".data = some [⟨"hello world".data, 0⟩] := by decide

end ChunkTests

/-! ## Chunker lemmas -/

lemma dropWhile_length_le (p : Char → Bool) :
    ∀ l : Str, (l.dropWhile p).length ≤ l.length
  | [] => le_rfl
  | c :: l => by
    simp only [List.dropWhile]
    split
    · exact le_trans (dropWhile_length_le p l) (Nat.le_succ _)
    · exact le_rfl

lemma jsTrim_length_le (s : Str) : (jsTrim s).length ≤ s.length := by
  unfold jsTrim
  calc ((s.dropWhile isJsWs).reverse.dropWhile isJsWs).reverse.length
      = ((s.dropWhile isJsWs).reverse.dropWhile isJsWs).length := by
        rw [List.length_reverse]
    _ ≤ (s.dropWhile isJsWs).reverse.length := dropWhile_length_le _ _
    _ = (s.dropWhile isJsWs).length := by rw [List.length_reverse]
    _ ≤ s.length := dropWhile_length_le _ _

lemma jsSlice_length_le (s : Str) (a b : Int) : (jsSlice s a b).length ≤ s.length := by
  unfold jsSlice
  simp only [List.length_drop, List.length_take]
  omega

lemma jsSlice_length_le_sub (s : Str) (a b : Int) :
    (jsSlice s a b).length ≤ s.length - jsSliceClamp s.length a := by
  unfold jsSlice
  simp only [List.length_drop, List.length_take]
  omega

/-- In every branch, the chunk built at `start` is no longer than the
trimmed window slice. -/
lemma chunkAt_length_le (text : Str) (cs : Nat) (start : Int) :
    (chunkAt text cs start).length
      ≤ (jsTrim (jsSlice text start (min (start + cs) (text.length : Int)))).length := by
  simp only [chunkAt]
  split
  · split
    · exact le_trans (jsTrim_length_le _) (jsSlice_length_le _ _ _)
    · exact le_rfl
  · exact le_rfl

/-- The core arithmetic fact behind the chunker's non-termination: the
chunk kept at `start` never extends past the end of the text, so the new
start position `start + chunk.length - overlap` stays `overlap` short of
`text.length`. -/
lemma chunkAt_length_bound (text : Str) (cs : Nat) (start : Int)
    (h : start < (text.length : Int)) :
    start + ((chunkAt text cs start).length : Int) ≤ (text.length : Int) := by
  have h1 := chunkAt_length_le text cs start
  have h2 := jsTrim_length_le (jsSlice text start (min (start + cs) (text.length : Int)))
  have h3 := jsSlice_length_le_sub text start (min (start + cs) (text.length : Int))
  have h4 := jsSlice_length_le text start (min (start + cs) (text.length : Int))
  by_cases h0 : start < 0
  · omega
  · have hclamp : jsSliceClamp text.length start = start.toNat := by
      unfold jsSliceClamp
      rw [if_neg (by omega)]
      omega
    rw [hclamp] at h3
    omega

/-- **The chunking loop never terminates on any text longer than
`chunkSize`** (with the default `chunkSize = 800`, `overlap = 150`).
Termination would require `start ≥ text.length`, but each iteration sets
`start` to `start + chunk.length - 150` with
`start + chunk.length ≤ text.length`, so `start` stays at least `150`
characters short of the end forever. -/
theorem chunkLoop_never_returns (text : Str) :
    ∀ (fuel : Nat) (start : Int) (index : Nat) (chunks : List Chunk),
      start < (text.length : Int) →
      chunkLoop text 800 150 fuel start index chunks = none := by
  intro fuel
  induction fuel with
  | zero => intro start index chunks _; rfl
  | succ n ih =>
    intro start index chunks hlt
    have hbound := chunkAt_length_bound text 800 start hlt
    have hlt' : start + ((chunkAt text 800 start).length : Int) - (150 : Nat)
        < (text.length : Int) := by omega
    unfold chunkLoop
    rw [if_pos hlt, if_neg (by omega)]
    exact ih _ _ _ hlt'

/-- C2, what the code actually does: `chunkDocument` diverges (returns
`none` for every fuel) on every text longer than `chunkSize = 800`. -/
theorem chunkDocument_diverges (text : Str) (h : 800 < text.length) (fuel : Nat) :
    chunkDocument text 800 150 fuel = none := by
  unfold chunkDocument
  rw [if_neg (by omega)]
  exact chunkLoop_never_returns text fuel 0 0 [] (by omega)

/-! ## Hash lemmas (C8) -/

/-- The hash exactly as the specification words it: "`h = h*31 + charCode`,
wrapped to 32 bits" — a plain wrapped fold, with no final `Math.abs`.
Kept separate from `simpleHash` so the two can be compared. -/
def specHash32 (s : Str) : ℤ :=
  s.foldl (fun h c => toInt32 (h * 31 + (c.toNat : ℤ))) 0

/-- One step of the source's shift-based loop equals one step of the
spec's `h*31 + charCode` wrapped fold: `(h << 5) - h + c`, wrapped, is
`31*h + c`, wrapped. -/
lemma simpleHashStep_eq (h : ℤ) (c : Char) :
    simpleHashStep h c = toInt32 (h * 31 + (c.toNat : ℤ)) := by
  unfold simpleHashStep toInt32
  omega

lemma simpleHash_foldl_congr :
    ∀ (s : Str) (h : ℤ),
      s.foldl simpleHashStep h = s.foldl (fun h c => toInt32 (h * 31 + (c.toNat : ℤ))) h
  | [], _ => rfl
  | c :: s, h => by
    simp only [List.foldl]
    rw [simpleHashStep_eq]
    exact simpleHash_foldl_congr s _

/-- The code's hash is the absolute value of the spec's wrapped fold. -/
theorem simpleHash_eq_abs_specHash32 (s : Str) : simpleHash s = |specHash32 s| := by
  unfold simpleHash specHash32
  rw [simpleHash_foldl_congr]

lemma generateEmbedding_length (env : Env) (t : Str) :
    (generateEmbedding env t).length = 384 := by
  simp [generateEmbedding]

lemma generateEmbedding_component (env : Env) (t : Str) (i : Nat) (h : i < 384) :
    (generateEmbedding env t).getD i 0 =
      env.sin ((simpleHash t : ℚ) + i) * (1/10)
        + env.cos ((simpleHash t : ℚ) * 2 + i) * (1/20) := by
  unfold generateEmbedding
  rw [List.getD_eq_getElem?_getD, List.getElem?_map, List.getElem?_range h]
  rfl

/-! ## The answer and the cache store -/

/-- A source attribution on an `Answer`
(`{ filename, fileType, similarity }`). -/
structure SourceRef where
  filename : Str
  fileType : Str
  similarity : JSNum
deriving DecidableEq, Repr

/-- A web attribution on an `Answer` (`{ title, source, url }`). -/
structure WebRef where
  title : Str
  source : Str
  url : Str
deriving DecidableEq, Repr

/-- A synthesized answer.  `webSearchEnabled` is only present on answers
shaped by the generation path; `error` is only set by the outer `catch`. -/
structure Answer where
  answer : Str
  sources : List SourceRef
  webResults : List WebRef
  webSearchEnabled : Option Bool := none
  error : Bool := false
deriving DecidableEq, Repr

/-- A passage-cache hash entry as written by `generateAndCacheEmbeddings`:
`{ text, embedding, docId, filename }`.  The `embedding` field is stored
as a JSON string in Redis and parsed on read; it is kept in parsed form
here (the string form is never empty, so its JS truthiness check is
always true). -/
structure CHash where
  text : Str
  embedding : List ℚ
  docId : Str
  filename : Str
deriving DecidableEq, Repr

/-- A Redis value: a hash entry (passage cache) or a cached `Answer`
(answer cache; the `JSON.stringify`/`JSON.parse` round trip is modelled
as storing the structured value — see `stringifyAnswer` for the places
where the source inspects the serialized text). -/
inductive RVal where
  | hash : CHash → RVal
  | ans : Answer → RVal
deriving DecidableEq, Repr

/-- The Redis key space: newest binding first (SET overwrites by
shadowing). -/
abbrev Store := List (Str × RVal)

def storeFind : Store → Str → Option RVal
  | [], _ => none
  | (k, v) :: rest, key => if k = key then some v else storeFind rest key

/-- `redisClient.get` on an answer-cache key, as the structured answer. -/
def agetAns (s : Store) (k : Str) : Option Answer :=
  match storeFind s k with
  | some (.ans a) => some a
  | _ => none

/-- `redisClient.setEx(key, ttl, JSON.stringify(answer))`; the TTL is not
observable in this model. -/
def rsetAns (s : Store) (k : Str) (a : Answer) (_ttl : Nat) : Store :=
  (k, .ans a) :: s

/-- `redisClient.hGetAll(key)`: `none` plays the role of the empty object
`{}` returned for an absent key. -/
def rhashGet (s : Store) (k : Str) : Option CHash :=
  match storeFind s k with
  | some (.hash h) => some h
  | _ => none

/-- The passage-cache key `doc:${documentId}:chunk:${index}`. -/
def chunkKey (docId : Str) (i : Nat) : Str :=
  "doc:".data ++ docId ++ ":chunk:".data ++ natToStr i

/-! ## The retriever (`retrieveRelevantChunks`) -/

/-- An entry of the `similarities` array. -/
structure Candidate where
  text : Str
  similarity : JSNum
  docId : Str
  filename : Str
  fileType : Str
deriving DecidableEq, Repr

/-- `String.prototype.replace` with a plain-string pattern: replace the
first occurrence only. -/
def jsReplaceFirst : Str → Str → Str → Str
  | [], pat, repl => if pat.isEmpty then repl else []
  | c :: rest, pat, repl =>
    if jsStartsWith (c :: rest) pat then repl ++ (c :: rest).drop pat.length
    else c :: jsReplaceFirst rest pat repl

/-- The lexical-fallback similarity of lines 262–284 of `ragService.js`:
`0.9` on an exact lower-cased substring match, otherwise the fraction of
space-separated query words of length `> 2` found in the chunk, times
`0.7` (an unguarded division: `0/0` is `NaN`), then for `.pdf` documents a
floor of `0.8` via `Math.max` when the query mentions the document
generically. -/
def fallbackSimilarity (query chunkText fileType origName : Str) : JSNum :=
  let queryLower := jsLower query
  let chunkTextLower := jsLower chunkText
  let base : JSNum :=
    if jsIncludes chunkTextLower queryLower then .num (9/10)
    else
      let queryWords := (jsSplitChar ' ' queryLower).filter (fun w => 2 < w.length)
      let matchedWords := queryWords.filter (fun w => jsIncludes chunkTextLower w)
      jsMul (jsDivNat matchedWords.length queryWords.length) (.num (7/10))
  if fileType = ".pdf".data then
    if jsIncludes queryLower "pdf".data || jsIncludes queryLower "document".data
        || jsIncludes queryLower "file".data || jsIncludes queryLower "summary".data
        || jsIncludes queryLower (jsReplaceFirst (jsLower origName) ".pdf".data []) then
      jsMax2 base (.num (4/5))
    else base
  else base

/-- The fallback branch of the chunk loop (lines 259–297): direct text
search against the persisted chunk, guarded by the `chunk && chunk.text`
truthiness check and the `similarity > 0.1` floor. -/
def fallbackCandidate (query : Str) (doc : Doc) (i : Nat) : Option Candidate :=
  let chunk := doc.chunks.getD i ⟨[], 0⟩
  if chunk.text ≠ [] then
    let sim := fallbackSimilarity query chunk.text doc.fileType doc.originalName
    if jsGtB sim (.num (1/10)) then
      some ⟨chunk.text, sim, doc.id, doc.originalName, doc.fileType⟩
    else none
  else none

/-- The candidate pushed (or not) for chunk `i` of `doc`: the Redis
embedding path for non-PDF files with a cached entry whose `text` field is
truthy (pushed with no similarity floor), otherwise the lexical
fallback. -/
def candidateFor (env : Env) (store : Store) (query : Str) (doc : Doc) (i : Nat) :
    Option Candidate :=
  if doc.fileType ≠ ".pdf".data then
    match rhashGet store (chunkKey doc.id i) with
    | some h =>
      if h.text ≠ [] then
        some ⟨h.text,
          .num (cosineSimilarity env (generateEmbedding env query) h.embedding),
          doc.id, doc.originalName, doc.fileType⟩
      else fallbackCandidate query doc i
    | none => fallbackCandidate query doc i
  else fallbackCandidate query doc i

/-- The `similarities` array accumulated over every chunk of every
`completed` document, in iteration order. -/
def buildCandidates (env : Env) (store : Store) (query : Str) : List Candidate :=
  (env.documents.filter (fun d => decide (d.status = "completed".data))).flatMap
    (fun doc => (List.range doc.chunks.length).filterMap (candidateFor env store query doc))

/-- Stable insertion for the descending sort
`(a, b) => b.similarity - a.similarity` (a `NaN` comparator value counts
as equal, per the ECMAScript SortCompare clause). -/
def insertDesc (x : Candidate) : List Candidate → List Candidate
  | [] => [x]
  | y :: ys => if jsGtB y.similarity x.similarity then y :: insertDesc x ys else x :: y :: ys

/-- Stable descending sort by similarity (ES2019 `Array.prototype.sort`
is stable; any stable sort under the same comparator produces the same
list). -/
def sortDesc : List Candidate → List Candidate
  | [] => []
  | x :: xs => insertDesc x (sortDesc xs)

/-- `RAGService.retrieveRelevantChunks(query, topK = 3)`.  The outer
`try`/`catch` (return `[]` on error) is unreachable in the model; the
`documents.length === 0` early return coincides with the general path. -/
def retrieveRelevantChunks (env : Env) (store : Store) (query : Str)
    (topK : Nat := 3) : List Candidate :=
  (sortDesc (buildCandidates env store query)).take topK

/-! ## Pure parts of `webSearchService` -/

/-- The keyword list of `WebSearchService.isWebSearchRequest`. -/
def webSearchKeywords : List Str :=
  ["search internet".data, "search web".data, "search online".data, "google".data,
   "find online".data, "web search".data, "internet search".data, "search for".data,
   "look up online".data, "find more info".data, "additional information".data,
   "latest news".data, "current info".data]

/-- `WebSearchService.isWebSearchRequest`. -/
def isWebSearchRequest (query : Str) : Bool :=
  let queryLower := jsLower query
  webSearchKeywords.any (fun kw => jsIncludes queryLower kw)

/-- `\w` of the regex `/[^\w\s]/g`: ASCII word characters. -/
def isWordChar (c : Char) : Bool := c.isAlphanum || c = '_'

/-- `.replace(/[^\w\s]/g, ' ')`. -/
def cleanNonWord (s : Str) : Str :=
  s.map (fun c => if isWordChar c || isJsWs c then c else ' ')

/-- `[...new Set(l)]`: deduplicate preserving first-occurrence order. -/
def dedupKeepFirst (l : List Str) : List Str :=
  l.foldl (fun acc w => if w ∈ acc then acc else acc ++ [w]) []

/-- `WebSearchService.extractSearchTerms`: up to 6 terms drawn from the
query's words (length > 2) followed by the document's first 10 words
(length > 3), deduplicated, joined by spaces. -/
def extractSearchTerms (documentContent userQuery : Str) : Str :=
  let documentWords :=
    ((jsSplitChar ' ' (cleanNonWord (jsLower documentContent))).filter
      (fun w => 3 < w.length)).take 10
  let queryWords :=
    (jsSplitChar ' ' (cleanNonWord (jsLower userQuery))).filter (fun w => 2 < w.length)
  let allTerms := dedupKeepFirst (queryWords ++ documentWords)
  List.intercalate " ".data (allTerms.take 6)

/-- `.replace(/[?!.]/g, '')`. -/
def stripPunct (s : Str) : Str :=
  s.filter (fun c => !(c = '?' || c = '!' || c = '.'))

/-- The length of a match of `/search\s+(internet|web|online|for)/i` at the
head of `s`, if any.  `\s+` is effectively "all following whitespace"
since none of the alternatives begins with whitespace. -/
def matchTriggerLen (s : Str) : Option Nat :=
  if jsStartsWith (jsLower s) "search".data then
    let rest := s.drop 6
    let wsCount := (rest.takeWhile isJsWs).length
    if wsCount = 0 then none
    else
      let rl := jsLower (rest.drop wsCount)
      if jsStartsWith rl "internet".data then some (6 + wsCount + 8)
      else if jsStartsWith rl "web".data then some (6 + wsCount + 3)
      else if jsStartsWith rl "online".data then some (6 + wsCount + 6)
      else if jsStartsWith rl "for".data then some (6 + wsCount + 3)
      else none
  else none

/-- Global, non-overlapping removal of the trigger pattern, scanning left
to right.  The fuel is the string length; every step consumes at least one
character, so the fuel never runs out. -/
def removeTriggersAux : Nat → Str → Str
  | 0, s => s
  | _ + 1, [] => []
  | fuel + 1, c :: rest =>
    match matchTriggerLen (c :: rest) with
    | some k => removeTriggersAux fuel ((c :: rest).drop k)
    | none => c :: removeTriggersAux fuel rest

def removeSearchTriggers (s : Str) : Str := removeTriggersAux s.length s

/-- The direct search query derived from the question when no documents
matched (lines 386–389): strip `?!.`, remove
`search (internet|web|online|for)` triggers, trim. -/
def directSearchTerms (question : Str) : Str :=
  jsTrim (removeSearchTriggers (stripPunct question))

/-! ## The answer cache key (`Buffer.from(question).toString('base64').substring(0, 50)`) -/

/-- UTF-8 encoding of one character (what `Buffer.from(string)` does). -/
def utf8Char (c : Char) : List Nat :=
  let n := c.toNat
  if n < 128 then [n]
  else if n < 2048 then [192 + n / 64, 128 + n % 64]
  else if n < 65536 then [224 + n / 4096, 128 + n / 64 % 64, 128 + n % 64]
  else [240 + n / 262144, 128 + n / 4096 % 64, 128 + n / 64 % 64, 128 + n % 64]

def utf8Str (s : Str) : List Nat := s.flatMap utf8Char

def b64Alphabet : Str :=
  "ABCDEFGHIJKLMNOPQRSTUVWXYZabcdefghijklmnopqrstuvwxyz0123456789+/".data

def b64Char (n : Nat) : Char := b64Alphabet.getD n 'A'

/-- Standard base64 with `=` padding, 3 bytes to 4 characters. -/
def base64Encode : List Nat → Str
  | [] => []
  | [b1] => [b64Char (b1 / 4), b64Char (b1 % 4 * 16), '=', '=']
  | [b1, b2] => [b64Char (b1 / 4), b64Char (b1 % 4 * 16 + b2 / 16), b64Char (b2 % 16 * 4), '=']
  | b1 :: b2 :: b3 :: rest =>
    b64Char (b1 / 4) :: b64Char (b1 % 4 * 16 + b2 / 16) ::
      b64Char (b2 % 16 * 4 + b3 / 64) :: b64Char (b3 % 64) :: base64Encode rest

/-- The answer-cache key
`answer:${roomId}:${base64(question).substring(0, 50)}:ws${webSearchEnabled}`. -/
def answerCacheKey (roomId question : Str) (ws : Bool) : Str :=
  "answer:".data ++ roomId ++ ":".data ++ (base64Encode (utf8Str question)).take 50
    ++ ":ws".data ++ (if ws then "true".data else "false".data)

section Base64Tests

example : base64Encode (utf8Str "hello".data) = "aGVsbG8=".data := by decide

end Base64Tests

/-! ## The answer synthesizer (`generateAnswer`) -/

/-- The apology returned by `generateAnswer`'s `catch`. -/
def apologyText : Str :=
  ("I apologize, but I encountered an error while generating a response. "
    ++ "Please try asking your question again, or rephrase it differently.").data

def apologyAnswer : Answer :=
  { answer := apologyText, sources := [], webResults := [], error := true }

/-- Canned reply: web search requested but disabled and nothing retrieved. -/
def cannedWebDisabled : Str :=
  ("Web search is currently disabled. I can only answer questions based on your "
    ++ "uploaded documents. To enable web search, please toggle the \x27Web Search\x27 "
    ++ "button in the chat header.").data

/-- Canned reply: the document store is empty. -/
def cannedNoDocs (ws : Bool) : Str :=
  ("I don\x27t have any uploaded documents to reference. Please upload some documents "
    ++ "first (PDF, TXT, or DOCX files) so I can provide helpful answers").data
    ++ (if ws then " and perform relevant web searches".data else []) ++ ".".data

/-- Canned reply: documents exist but none were relevant. -/
def cannedNotRelevant (totalDocs : Nat) (ws : Bool) : Str :=
  "I found ".data ++ natToStr totalDocs
    ++ (" uploaded document(s), but I couldn\x27t find content directly relevant to "
        ++ "your question. Try asking more specific questions about your documents").data
    ++ (if ws then ", or use web search for external information".data else [])
    ++ ".".data

/-- One entry of the document context:
`[Document ${idx+1}: ${filename}]` (plus ` (PDF)`) and the chunk text. -/
def docContextEntry (idx : Nat) (c : Candidate) : Str :=
  let sourceInfo := "[Document ".data ++ natToStr (idx + 1) ++ ": ".data ++ c.filename ++ "]".data
  let sourceInfo' := if c.fileType = ".pdf".data then sourceInfo ++ " (PDF)".data else sourceInfo
  sourceInfo' ++ "\n".data ++ c.text

/-- `documentContext`, the entries joined by `\n\n---\n\n` (empty when no
chunks were retrieved). -/
def documentContextOf (chunks : List Candidate) : Str :=
  if chunks = [] then []
  else List.intercalate "\n\n---\n\n".data (chunks.enum.map (fun p => docContextEntry p.1 p.2))

/-- One entry of the web context. -/
def webContextEntry (idx : Nat) (r : WebResult) : Str :=
  "[Web Result ".data ++ natToStr (idx + 1) ++ ": ".data ++ r.source
    ++ "]\nTitle: ".data ++ r.title ++ "\nContent: ".data ++ r.snippet
    ++ "\nURL: ".data ++ r.link

def webContextOf (rs : List WebResult) : Str :=
  List.intercalate "\n\n---\n\n".data (rs.enum.map (fun p => webContextEntry p.1 p.2))

/-- The combined documents-plus-web prompt. -/
def combinedPrompt (documentContext webContext question : Str) : Str :=
  ("You are an AI assistant helping users understand their documents and find related "
    ++ "information online. You have access to both their uploaded documents and current "
    ++ "web search results.\n\nDOCUMENT CONTEXT:\n").data ++ documentContext
    ++ "\n\nWEB SEARCH RESULTS:\n".data ++ webContext
    ++ "\n\nUser Question: ".data ++ question
    ++ ("\n\nInstructions:\n1. Start by analyzing the document content to understand the "
        ++ "core topic\n2. Then incorporate relevant information from the web search "
        ++ "results\n3. Provide a comprehensive answer that combines both sources\n"
        ++ "4. Clearly distinguish between information from the user\x27s document vs. web "
        ++ "sources\n5. Include specific details and be helpful\n6. Mention that web search "
        ++ "was performed to supplement the document information\n\nAnswer:").data

/-- The web-only prompt. -/
def webOnlyPrompt (webContext question : Str) : Str :=
  ("You are an AI assistant answering a question using current web search results."
    ++ "\n\nWEB SEARCH RESULTS:\n").data ++ webContext
    ++ "\n\nUser Question: ".data ++ question
    ++ ("\n\nInstructions:\n1. Answer based on the web search results\n2. Be informative "
        ++ "and helpful\n3. Cite sources when relevant\n\nAnswer:").data

/-- The documents-only prompt. -/
def docOnlyPrompt (documentContext question : Str) (ws : Bool) : Str :=
  ("You are an AI assistant helping users understand their uploaded documents. Based on "
    ++ "the provided context from their documents, answer the question clearly and "
    ++ "helpfully.\n\nDOCUMENT CONTEXT:\n").data ++ documentContext
    ++ "\n\nUser Question: ".data ++ question
    ++ ("\n\nInstructions:\n1. Answer based on the provided document context\n2. Be "
        ++ "helpful and conversational\n3. If the context mentions that PDF processing is "
        ++ "simplified, acknowledge this\n4. For PDF files, work with the available "
        ++ "information effectively\n5. ").data
    ++ (if ws then
          ("If the user asks about web search, explain that you can search the internet "
            ++ "for additional information").data
        else "Note that web search is currently disabled".data)
    ++ "\n6. Cite which documents you\x27re referencing when relevant\n\nAnswer:".data

/-- `sources: relevantChunks.map(...)` with 2-decimal rounding. -/
def shapeSources (chunks : List Candidate) : List SourceRef :=
  chunks.map (fun c => ⟨c.filename, c.fileType, jsRound2 c.similarity⟩)

/-- `webResults: webSearchResults.map(...)`. -/
def shapeWeb (rs : List WebResult) : List WebRef :=
  rs.map (fun r => ⟨r.title, r.source, r.link⟩)

/-- The result of one `generateAnswer` call: the returned answer, the
Redis store afterwards, and how many times the generation collaborator
was invoked. -/
structure GAResult where
  answer : Answer
  store : Store
  genCalls : Nat
deriving DecidableEq, Repr

/-- Lines 346–400: the web results gathered for this call — empty unless
the question requests search and the room enables it; search failures are
caught locally and yield no results. -/
def webResultsOf (env : Env) (question : Str) (isReq ws : Bool)
    (chunks : List Candidate) : List WebResult :=
  if isReq && ws then
    match chunks with
    | top :: _ =>
      match env.searchWeb (extractSearchTerms top.text question) 4 with
      | .ok rs => rs
      | .error _ => []
    | [] =>
      match env.searchWeb (directSearchTerms question) 4 with
      | .ok rs => rs
      | .error _ => []
  else []

/-- Lines 405–427: the canned answer text when nothing was retrieved and
no web results exist. -/
def cannedText (env : Env) (ws isReq : Bool) : Str :=
  let totalDocs :=
    (env.documents.filter (fun d => decide (d.status = "completed".data))).length
  if ¬ ws ∧ isReq then cannedWebDisabled
  else if totalDocs = 0 then cannedNoDocs ws
  else cannedNotRelevant totalDocs ws

/-- Lines 430–496: the prompt selected by which source tiers are
available. -/
def promptOf (documentContext : Str) (web : List WebResult) (chunks : List Candidate)
    (question : Str) (ws : Bool) : Str :=
  if web ≠ [] ∧ chunks ≠ [] then combinedPrompt documentContext (webContextOf web) question
  else if web ≠ [] then webOnlyPrompt (webContextOf web) question
  else docOnlyPrompt documentContext question ws

/-- The cache-miss path of `generateAnswer` (everything after the failed
cache probe).  The outer `try`/`catch` is compiled into the `match` on the
generation result: a rejected generation reaches the `catch`, which
returns the apology without writing the cache. -/
def generateAnswerMiss (env : Env) (question : Str) (ws : Bool) (cacheKey : Str)
    (s0 : Store) : GAResult :=
  let relevantChunks := retrieveRelevantChunks env s0 question 3
  let webSearchResults := webResultsOf env question (isWebSearchRequest question) ws relevantChunks
  if relevantChunks = [] ∧ webSearchResults = [] then
    let response : Answer :=
      { answer := cannedText env ws (isWebSearchRequest question)
        sources := [], webResults := [] }
    let cacheTime := if webSearchResults.length > 0 then 1800 else 3600
    ⟨response, rsetAns s0 cacheKey response cacheTime, 0⟩
  else
    match env.generate
        (promptOf (documentContextOf relevantChunks) webSearchResults relevantChunks
          question ws) with
    | .error _ => ⟨apologyAnswer, s0, 1⟩
    | .ok answerText =>
      let response : Answer :=
        { answer := answerText
          sources := shapeSources relevantChunks
          webResults := shapeWeb webSearchResults
          webSearchEnabled := some ws }
      let cacheTime := if webSearchResults.length > 0 then 1800 else 3600
      ⟨response, rsetAns s0 cacheKey response cacheTime, 1⟩

/-- `RAGService.generateAnswer(question, roomId, webSearchEnabled = true)`:
probe the answer cache under the content key, otherwise run the miss
path. -/
def generateAnswer (env : Env) (question roomId : Str) (webSearchEnabled : Bool)
    (s0 : Store) : GAResult :=
  match agetAns s0 (answerCacheKey roomId question webSearchEnabled) with
  | some cached => ⟨cached, s0, 0⟩
  | none =>
    generateAnswerMiss env question webSearchEnabled
      (answerCacheKey roomId question webSearchEnabled) s0

/-! ## `JSON.stringify` of a cached answer, and the deletion flow -/

/-- JSON string escaping (the inputs used here contain no characters that
need escaping beyond these). -/
def jsonEscChar (c : Char) : Str :=
  if c = '"' then ['\\', '"']
  else if c = '\\' then ['\\', '\\']
  else if c = '\n' then ['\\', 'n']
  else if c = '\r' then ['\\', 'r']
  else if c = '\t' then ['\\', 't']
  else [c]

def jsonStr (s : Str) : Str := '"' :: s.flatMap jsonEscChar ++ ['"']

/-- Fractional decimal digits of `rem / den`, up to `fuel` digits.  JS
prints the shortest decimal that round-trips the double; on the terminating
decimals that occur as similarity values the two coincide. -/
def fracDigits : Nat → Nat → Nat → Str
  | 0, _, _ => []
  | _ + 1, 0, _ => []
  | fuel + 1, rem, den =>
    Char.ofNat (48 + rem * 10 / den) :: fracDigits fuel (rem * 10 % den) den

/-- Decimal rendering of a rational, JS-number style (`1` not `1.0`). -/
def ratToStr (q : ℚ) : Str :=
  (if q < 0 then ['-'] else []) ++ natToStr (q.num.natAbs / q.den)
    ++ (if q.num.natAbs % q.den = 0 then []
        else '.' :: fracDigits 20 (q.num.natAbs % q.den) q.den)

/-- `JSON.stringify` of a number: `NaN` and the infinities serialize as
`null`. -/
def jsonNum : JSNum → Str
  | .num q => ratToStr q
  | _ => "null".data

def stringifySource (s : SourceRef) : Str :=
  "\x7b\"filename\":".data ++ jsonStr s.filename
    ++ ",\"fileType\":".data ++ jsonStr s.fileType
    ++ ",\"similarity\":".data ++ jsonNum s.similarity ++ "\x7d".data

def stringifyWebRef (r : WebRef) : Str :=
  "\x7b\"title\":".data ++ jsonStr r.title
    ++ ",\"source\":".data ++ jsonStr r.source
    ++ ",\"url\":".data ++ jsonStr r.url ++ "\x7d".data

/-- `JSON.stringify(response)`: fields in object-literal insertion order;
`webSearchEnabled` appears only when present, `error` only when set. -/
def stringifyAnswer (a : Answer) : Str :=
  "\x7b\"answer\":".data ++ jsonStr a.answer
    ++ ",\"sources\":[".data ++ List.intercalate ",".data (a.sources.map stringifySource)
    ++ "],\"webResults\":[".data
    ++ List.intercalate ",".data (a.webResults.map stringifyWebRef) ++ "]".data
    ++ (match a.webSearchEnabled with
        | some b => ",\"webSearchEnabled\":".data ++ (if b then "true".data else "false".data)
        | none => [])
    ++ (if a.error then ",\"error\":true".data else []) ++ "\x7d".data

/-- `redisClient.get(key)` as a string, for the answer-cache scan of
`deleteDocumentFromCache` (a hash-typed key would make GET throw, which
the surrounding `catch` would swallow; no such key is exercised). -/
def rvalAsGetString : RVal → Option Str
  | .ans a => some (stringifyAnswer a)
  | .hash _ => none

/-- `RAGService.deleteDocumentFromCache(documentId)`: delete every key
matching `doc:${documentId}:*`, then delete every `answer:*` key whose
cached string contains `documentId` as a substring. -/
def deleteDocumentFromCache (documentId : Str) (store : Store) : Store :=
  let docKeyStart := "doc:".data ++ documentId ++ ":".data
  let s1 := store.filter (fun p => !(jsStartsWith p.1 docKeyStart))
  s1.filter (fun p =>
    !(jsStartsWith p.1 "answer:".data
      && (match rvalAsGetString p.2 with
          | some cached => jsIncludes cached documentId
          | none => false)))

/-- The document-deletion flow of the `deleteDocument` route handler:
`Document.findByIdAndDelete(id)` followed by
`ragService.deleteDocumentFromCache(id)`. -/
def deleteDocument (env : Env) (store : Store) (id : Str) : Env × Store :=
  ({ env with documents := env.documents.filter (fun d => decide (d.id ≠ id)) },
    deleteDocumentFromCache id store)

/-! ## Definitions written from the claims' wording (for comparison) -/

/-- Split on every whitespace character (the claim's reading of "words
are split on whitespace"). -/
def splitOnJsWs : Str → List Str
  | [] => [[]]
  | c :: rest =>
    if isJsWs c then [] :: splitOnJsWs rest
    else match splitOnJsWs rest with
      | [] => [[c]]
      | w :: ws => (c :: w) :: ws

/-- Modelled from claim C6's wording: "if the lower-cased query is an
exact substring of the lower-cased chunk text the score is 0.9, otherwise
it is (count of query words of length>2 found in the chunk) / (total such
query words) * 0.7 with words split on whitespace". -/
def specLexScore (query chunkText : Str) : JSNum :=
  let queryLower := jsLower query
  let chunkTextLower := jsLower chunkText
  if jsIncludes chunkTextLower queryLower then .num (9/10)
  else
    let queryWords := (splitOnJsWs queryLower).filter (fun w => 2 < w.length)
    let matched := queryWords.filter (fun w => jsIncludes chunkTextLower w)
    jsMul (jsDivNat matched.length queryWords.length) (.num (7/10))

/-- The amended claim's score: same two-case formula but with words split
on the space character only, as the code does. -/
def specSpaceLexScore (query chunkText : Str) : JSNum :=
  let queryLower := jsLower query
  let chunkTextLower := jsLower chunkText
  if jsIncludes chunkTextLower queryLower then .num (9/10)
  else
    let queryWords := (jsSplitChar ' ' queryLower).filter (fun w => 2 < w.length)
    let matched := queryWords.filter (fun w => jsIncludes chunkTextLower w)
    jsMul (jsDivNat matched.length queryWords.length) (.num (7/10))

/-- For non-PDF documents the lexical fallback score is exactly the
two-case space-split formula (the `.pdf` floor branch is skipped). -/
lemma fallbackSimilarity_eq_spec (query chunkText ft name : Str) (hft : ft ≠ ".pdf".data) :
    fallbackSimilarity query chunkText ft name = specSpaceLexScore query chunkText := by
  unfold fallbackSimilarity specSpaceLexScore
  rw [if_neg hft]

/-! ## Helper lemmas about the store and `generateAnswer` -/

lemma agetAns_rsetAns_self (s : Store) (k : Str) (a : Answer) (ttl : Nat) :
    agetAns (rsetAns s k a ttl) k = some a := by
  simp [agetAns, rsetAns, storeFind]

/-- A cache hit returns the cached answer, mutates nothing and performs
no generation call. -/
lemma generateAnswer_hit (env : Env) (q room : Str) (ws : Bool) (s : Store) (a : Answer)
    (h : agetAns s (answerCacheKey room q ws) = some a) :
    generateAnswer env q room ws s = ⟨a, s, 0⟩ := by
  unfold generateAnswer
  rw [h]

/-- Unless the call ended in the `catch` (whose answer carries
`error = true`), the returned answer is stored in the answer cache under
this call's key when the call returns. -/
lemma generateAnswerMiss_caches_of_success (env : Env) (q : Str) (ws : Bool)
    (key : Str) (s0 : Store)
    (h : (generateAnswerMiss env q ws key s0).answer.error = false) :
    agetAns (generateAnswerMiss env q ws key s0).store key
      = some (generateAnswerMiss env q ws key s0).answer := by
  simp only [generateAnswerMiss] at h ⊢
  by_cases hc : retrieveRelevantChunks env s0 q = [] ∧
      webResultsOf env q (isWebSearchRequest q) ws (retrieveRelevantChunks env s0 q) = []
  · rw [if_pos hc]
    exact agetAns_rsetAns_self s0 key _ 0
  · rw [if_neg hc] at h ⊢
    cases hg : env.generate
        (promptOf (documentContextOf (retrieveRelevantChunks env s0 q))
          (webResultsOf env q (isWebSearchRequest q) ws (retrieveRelevantChunks env s0 q))
          (retrieveRelevantChunks env s0 q) q ws) with
    | error e =>
      rw [hg] at h
      simp [apologyAnswer] at h
    | ok t =>
      exact agetAns_rsetAns_self s0 key _ 0

lemma generateAnswer_caches_of_success (env : Env) (q room : Str) (ws : Bool) (s0 : Store)
    (h : (generateAnswer env q room ws s0).answer.error = false) :
    agetAns (generateAnswer env q room ws s0).store (answerCacheKey room q ws)
      = some (generateAnswer env q room ws s0).answer := by
  unfold generateAnswer at *
  cases hget : agetAns s0 (answerCacheKey room q ws) with
  | some a => exact hget
  | none =>
    rw [hget] at h
    exact generateAnswerMiss_caches_of_success env q ws _ s0 h

lemma generateAnswerMiss_apology_or_ok (env : Env) (q : Str) (ws : Bool)
    (key : Str) (s0 : Store) :
    (generateAnswerMiss env q ws key s0).answer = apologyAnswer
      ∨ (generateAnswerMiss env q ws key s0).answer.error = false := by
  simp only [generateAnswerMiss]
  split
  · exact Or.inr rfl
  · split
    · exact Or.inl rfl
    · exact Or.inr rfl

/-- Every `generateAnswer` result is either the canned apology of the
`catch` or a non-error answer (assuming the store was only ever written by
successful calls, which never cache an `error` answer). -/
lemma generateAnswer_apology_or_ok (env : Env) (q room : Str) (ws : Bool) (s0 : Store)
    (hwf : ∀ k a, agetAns s0 k = some a → a.error = false) :
    (generateAnswer env q room ws s0).answer = apologyAnswer
      ∨ (generateAnswer env q room ws s0).answer.error = false := by
  unfold generateAnswer
  cases hget : agetAns s0 (answerCacheKey room q ws) with
  | some a => exact Or.inr (hwf _ a hget)
  | none => exact generateAnswerMiss_apology_or_ok env q ws _ s0

/-! ## Sorting and candidate-similarity lemmas -/

lemma mem_insertDesc (a x : Candidate) :
    ∀ l : List Candidate, a ∈ insertDesc x l ↔ a = x ∨ a ∈ l
  | [] => by simp [insertDesc]
  | y :: ys => by
    simp only [insertDesc]
    split
    · rw [List.mem_cons, mem_insertDesc a x ys, List.mem_cons]
      tauto
    · simp only [List.mem_cons]

lemma mem_sortDesc (a : Candidate) :
    ∀ l : List Candidate, a ∈ sortDesc l ↔ a ∈ l
  | [] => Iff.rfl
  | x :: xs => by
    simp only [sortDesc, mem_insertDesc, mem_sortDesc a xs, List.mem_cons]

/-- The word-fraction score is a plain number unless the query has no
words of length `> 2`, in which case it is the `0/0` `NaN`. -/
lemma divmul_num_or_nan (m k : Nat) (hmk : m ≤ k) :
    (∃ x : ℚ, jsMul (jsDivNat m k) (.num (7/10)) = .num x)
      ∨ jsMul (jsDivNat m k) (.num (7/10)) = .nan := by
  unfold jsDivNat
  by_cases hk : k = 0
  · subst hk
    have hm : m = 0 := by omega
    subst hm
    exact Or.inr rfl
  · rw [if_neg hk]
    exact Or.inl ⟨_, rfl⟩

/-- A lexical-fallback score is always a plain number or `NaN` (never an
infinity: the matched-word count never exceeds the word count). -/
lemma fallbackSimilarity_num_or_nan (q c ft n : Str) :
    (∃ x : ℚ, fallbackSimilarity q c ft n = .num x)
      ∨ fallbackSimilarity q c ft n = .nan := by
  simp only [fallbackSimilarity]
  have hbase :
      (∃ x : ℚ, (if jsIncludes (jsLower c) (jsLower q) then JSNum.num (9/10)
          else jsMul (jsDivNat
            (((jsSplitChar ' ' (jsLower q)).filter (fun w => 2 < w.length)).filter
              (fun w => jsIncludes (jsLower c) w)).length
            ((jsSplitChar ' ' (jsLower q)).filter (fun w => 2 < w.length)).length)
            (.num (7/10))) = .num x)
        ∨ (if jsIncludes (jsLower c) (jsLower q) then JSNum.num (9/10)
          else jsMul (jsDivNat
            (((jsSplitChar ' ' (jsLower q)).filter (fun w => 2 < w.length)).filter
              (fun w => jsIncludes (jsLower c) w)).length
            ((jsSplitChar ' ' (jsLower q)).filter (fun w => 2 < w.length)).length)
            (.num (7/10))) = .nan := by
    split
    · exact Or.inl ⟨_, rfl⟩
    · exact divmul_num_or_nan _ _ (List.length_filter_le _ _)
  split
  · split
    · rcases hbase with ⟨x, hx⟩ | hx <;> rw [hx]
      · exact Or.inl ⟨_, rfl⟩
      · exact Or.inr rfl
    · exact hbase
  · exact hbase

lemma fallbackCandidate_sim (query : Str) (doc : Doc) (i : Nat) (c : Candidate)
    (h : fallbackCandidate query doc i = some c) : ∃ x : ℚ, c.similarity = .num x := by
  simp only [fallbackCandidate] at h
  split at h
  · split at h
    next hgt =>
      rcases fallbackSimilarity_num_or_nan query (doc.chunks.getD i ⟨[], 0⟩).text
          doc.fileType doc.originalName with ⟨x, hx⟩ | hx
      · cases h
        exact ⟨x, hx⟩
      · rw [hx] at hgt
        simp [jsGtB] at hgt
    next => cases h
  · cases h

lemma candidateFor_sim (env : Env) (store : Store) (query : Str) (doc : Doc) (i : Nat)
    (c : Candidate) (h : candidateFor env store query doc i = some c) :
    ∃ x : ℚ, c.similarity = .num x := by
  simp only [candidateFor] at h
  split at h
  · split at h
    next ch heq =>
      split at h
      · cases h
        exact ⟨_, rfl⟩
      · exact fallbackCandidate_sim query doc i c h
    next heq => exact fallbackCandidate_sim query doc i c h
  · exact fallbackCandidate_sim query doc i c h

/-- Every retrieved candidate carries a plain numeric similarity. -/
lemma retrieve_sim_num (env : Env) (store : Store) (q : Str) (topK : Nat) (c : Candidate)
    (h : c ∈ retrieveRelevantChunks env store q topK) : ∃ x : ℚ, c.similarity = .num x := by
  unfold retrieveRelevantChunks at h
  have h1 : c ∈ sortDesc (buildCandidates env store q) := List.take_subset _ _ h
  rw [mem_sortDesc] at h1
  unfold buildCandidates at h1
  rw [List.mem_flatMap] at h1
  obtain ⟨doc, _, hc⟩ := h1
  rw [List.mem_filterMap] at hc
  obtain ⟨i, _, hcf⟩ := hc
  exact candidateFor_sim env store q doc i c hcf

/-! ## Base64 truncation lemmas (C9) -/

/-- The first `4n + 2` base64 characters are determined by the first
`3n + 2` input bytes (the `(4n+2)`-th character uses only the top nibble
of byte `3n + 2`, which `take (3n + 2)` includes). -/
lemma base64_take_aux : ∀ (n : Nat) (l : List Nat),
    (base64Encode l).take (4 * n + 2) = (base64Encode (l.take (3 * n + 2))).take (4 * n + 2)
  | 0, [] => rfl
  | 0, [_] => rfl
  | 0, [_, _] => rfl
  | 0, _ :: _ :: _ :: _ => rfl
  | n + 1, [] => by
    rw [List.take_nil]
  | n + 1, [b1] => by
    have : [b1].take (3 * (n + 1) + 2) = [b1] := by
      apply List.take_of_length_le
      simp only [List.length_cons, List.length_nil]
      omega
    rw [this]
  | n + 1, [b1, b2] => by
    have : [b1, b2].take (3 * (n + 1) + 2) = [b1, b2] := by
      apply List.take_of_length_le
      simp only [List.length_cons, List.length_nil]
      omega
    rw [this]
  | n + 1, b1 :: b2 :: b3 :: rest => by
    have e1 : 4 * (n + 1) + 2 = (4 * n + 2) + 1 + 1 + 1 + 1 := by ring
    have e2 : 3 * (n + 1) + 2 = (3 * n + 2) + 1 + 1 + 1 := by ring
    rw [e1, e2]
    simp only [base64Encode, List.take_succ_cons]
    rw [base64_take_aux n rest]

/-- Byte lists agreeing on their first 38 bytes produce the same first 50
base64 characters. -/
lemma base64_take_50 (l1 l2 : List Nat) (h : l1.take 38 = l2.take 38) :
    (base64Encode l1).take 50 = (base64Encode l2).take 50 := by
  have h1 := base64_take_aux 12 l1
  have h2 := base64_take_aux 12 l2
  norm_num at h1 h2
  rw [h1, h2, h]

/-- Questions whose UTF-8 encodings agree on the first 38 bytes get the
same answer-cache key. -/
lemma answerCacheKey_eq_of_take38 (room : Str) (ws : Bool) (q1 q2 : Str)
    (h : (utf8Str q1).take 38 = (utf8Str q2).take 38) :
    answerCacheKey room q1 ws = answerCacheKey room q2 ws := by
  unfold answerCacheKey
  rw [base64_take_50 _ _ h]

/-! ## Concrete environments and inputs for witnesses and counterexamples -/

/-- A minimal environment: no documents, constant numeric library
functions, a generation collaborator that always succeeds, a web-search
collaborator that always rejects (as when no API key is configured). -/
def envBase : Env :=
  { documents := []
    sin := fun _ => 0
    cos := fun _ => 0
    sqrt := fun _ => 0
    generate := fun _ => .ok "generated answer".data
    searchWeb := fun _ _ => .error () }

/-- Like `envBase` but with the identity for `Math.sin`, to observe the
sign of the hash through an embedding component. -/
def envSinId : Env := { envBase with sin := fun x => x }

/-- Retrieval over a store whose only completed document has exactly one
chunk reduces to that chunk's `candidateFor` decision. -/
lemma retrieve_single (env : Env) (store : Store) (query : Str) (doc : Doc)
    (hst : doc.status = "completed".data) (hch : doc.chunks.length = 1) :
    retrieveRelevantChunks { env with documents := [doc] } store query 3
      = match candidateFor { env with documents := [doc] } store query doc 0 with
        | some c => [c]
        | none => [] := by
  unfold retrieveRelevantChunks buildCandidates
  have hfilter :
      List.filter (fun d => decide (d.status = "completed".data)) [doc] = [doc] := by
    simp [List.filter, hst]
  rw [hfilter]
  simp only [List.flatMap_cons, List.flatMap_nil, List.append_nil]
  rw [hch]
  cases h : candidateFor { env with documents := [doc] } store query doc 0 with
  | some c => simp [h, List.range, List.range.loop, sortDesc, insertDesc]
  | none => simp [h, List.range, List.range.loop, sortDesc]

/-! ## Claim theorems -/

/-- C2 witness: a concrete 801-character text on which the chunking loop
never finishes. -/
theorem c2_witness :
    800 < (List.replicate 801 'a').length
    ∧ chunkDocument (List.replicate 801 'a') 800 150 5 = none :=
  ⟨by rw [List.length_replicate]; norm_num,
   chunkDocument_diverges (List.replicate 801 'a') (by rw [List.length_replicate]; norm_num) 5⟩

/-- C7: for every text of length at most `targetSize = 800`,
`chunkDocument` returns exactly one chunk, with index 0, whose text is the
trimmed input. -/
theorem c7_short_text_single_chunk (text : Str) (h : text.length ≤ 800) (fuel : Nat) :
    chunkDocument text 800 150 fuel = some [⟨jsTrim text, 0⟩] := by
  unfold chunkDocument
  rw [if_pos h]

theorem c7_witness :
    "The invoice total is $450.".data.length ≤ 800
    ∧ chunkDocument "The invoice total is $450.".data 800 150 0
        = some [⟨jsTrim "The invoice total is $450.".data, 0⟩] :=
  ⟨by decide, c7_short_text_single_chunk "The invoice total is $450.".data (by decide) 0⟩

/-- C3: the answer-cache key is a pure function of
(room, question text, web-search flag) — `answerCacheKey` takes exactly
those arguments and is deterministic — and, whenever a `generateAnswer`
call did not end in the error `catch`, a second call with identical
arguments against the state the first call left behind is a cache hit: it
returns the first call's answer unchanged, leaves the store untouched and
performs no generation call. -/
theorem c3_second_call_is_cache_hit (env : Env) (q room : Str) (ws : Bool) (s0 : Store)
    (h : (generateAnswer env q room ws s0).answer.error = false) :
    generateAnswer env q room ws (generateAnswer env q room ws s0).store
      = ⟨(generateAnswer env q room ws s0).answer,
         (generateAnswer env q room ws s0).store, 0⟩ :=
  generateAnswer_hit env q room ws _ _ (generateAnswer_caches_of_success env q room ws s0 h)

theorem c3_witness :
    (generateAnswer envBase "hi".data "room1".data true []).answer.error = false
    ∧ generateAnswer envBase "hi".data "room1".data true
        (generateAnswer envBase "hi".data "room1".data true []).store
      = ⟨(generateAnswer envBase "hi".data "room1".data true []).answer,
         (generateAnswer envBase "hi".data "room1".data true []).store, 0⟩ :=
  ⟨by decide, c3_second_call_is_cache_hit envBase "hi".data "room1".data true [] (by decide)⟩

/-- C4: `generateAnswer` is a total function of its inputs (it cannot
throw: every fallible collaborator result is matched), and its result is
either a normal answer (`error = false`) or exactly the degraded apology
answer, whose `sources` and `webResults` are empty — provided the incoming
store only holds answers a successful call could have cached. -/
theorem c4_no_throw_apology_fallback (env : Env) (q room : Str) (ws : Bool) (s0 : Store)
    (hwf : ∀ k a, agetAns s0 k = some a → a.error = false) :
    ((generateAnswer env q room ws s0).answer = apologyAnswer
        ∧ apologyAnswer.sources = [] ∧ apologyAnswer.webResults = [])
      ∨ (generateAnswer env q room ws s0).answer.error = false := by
  rcases generateAnswer_apology_or_ok env q room ws s0 hwf with h | h
  · exact Or.inl ⟨h, rfl, rfl⟩
  · exact Or.inr h

theorem c4_witness :
    (∀ k a, agetAns ([] : Store) k = some a → a.error = false)
    ∧ (((generateAnswer envBase "hi".data "room1".data true []).answer = apologyAnswer
          ∧ apologyAnswer.sources = [] ∧ apologyAnswer.webResults = [])
        ∨ (generateAnswer envBase "hi".data "room1".data true []).answer.error = false) :=
  ⟨fun k a h => by simp [agetAns, storeFind] at h,
   c4_no_throw_apology_fallback envBase "hi".data "room1".data true []
     (fun k a h => by simp [agetAns, storeFind] at h)⟩

/-- C8 counterexample: on the text "aaaaaa" the 32-bit wrapped fold
`h*31 + charCode` is negative, so the code's hash (its absolute value)
differs from the claim's `h`, and the component formula stated with the
wrapped hash fails (shown at component 0 with `sin` modelled as the
identity and `cos` as the zero function). -/
theorem c8_counterexample :
    specHash32 "aaaaaa".data = -1425372064
    ∧ simpleHash "aaaaaa".data = 1425372064
    ∧ (generateEmbedding envSinId "aaaaaa".data).getD 0 0 = 1425372064 * (1/10)
    ∧ envSinId.sin ((specHash32 "aaaaaa".data : ℚ) + 0) * (1/10)
        + envSinId.cos ((specHash32 "aaaaaa".data : ℚ) * 2 + 0) * (1/20)
        = -1425372064 * (1/10)
    ∧ (1425372064 * (1/10) : ℚ) ≠ -1425372064 * (1/10) := by
  refine ⟨by decide, by decide, ?_, ?_, by norm_num⟩
  · unfold generateEmbedding
    rw [List.getD_eq_getElem?_getD, List.getElem?_map, List.getElem?_range (by norm_num)]
    have hs : simpleHash "aaaaaa".data = 1425372064 := by decide
    simp only [Option.map_some, Option.getD_some, envSinId, envBase, hs]
    norm_num
  · have hs : specHash32 "aaaaaa".data = -1425372064 := by decide
    simp only [envSinId, envBase, hs]
    norm_num

/-- C8 (amended): `generateEmbedding` deterministically returns exactly
384 components, component `i` being
`sin(h + i) * 0.1 + cos(2h + i) * 0.05`, where `h` is the **absolute
value** of the 32-bit wrapped polynomial rolling hash `h = h*31 +
charCode` of the text. -/
theorem c8_embedding_formula (env : Env) (t : Str) (i : Nat) (h : i < 384) :
    (generateEmbedding env t).length = 384
    ∧ (generateEmbedding env t).getD i 0
        = env.sin ((simpleHash t : ℚ) + i) * (1/10)
          + env.cos ((simpleHash t : ℚ) * 2 + i) * (1/20)
    ∧ simpleHash t = |specHash32 t| :=
  ⟨generateEmbedding_length env t, generateEmbedding_component env t i h,
    simpleHash_eq_abs_specHash32 t⟩

theorem c8_witness :
    (0 : Nat) < 384
    ∧ ((generateEmbedding envBase "abc".data).length = 384
        ∧ (generateEmbedding envBase "abc".data).getD 0 0
            = envBase.sin ((simpleHash "abc".data : ℚ) + 0) * (1/10)
              + envBase.cos ((simpleHash "abc".data : ℚ) * 2 + 0) * (1/20)
        ∧ simpleHash "abc".data = |specHash32 "abc".data|) :=
  ⟨by decide, c8_embedding_formula envBase "abc".data 0 (by decide)⟩

/-- C9 counterexample: two distinct questions agreeing on their first 37
bytes whose cache keys differ — the 50th base64 character also encodes the
top four bits of the 38th byte, so 37 bytes of agreement are not enough. -/
theorem c9_counterexample :
    (utf8Str (List.replicate 37 'a' ++ ['A'])).take 37
        = (utf8Str (List.replicate 37 'a' ++ ['a'])).take 37
    ∧ List.replicate 37 'a' ++ ['A'] ≠ List.replicate 37 'a' ++ ['a']
    ∧ answerCacheKey "room1".data (List.replicate 37 'a' ++ ['A']) true
        ≠ answerCacheKey "room1".data (List.replicate 37 'a' ++ ['a']) true := by
  decide

/-- C9 (amended): the answer-cache key keeps only the first 50 base64
characters of the question, so any two questions agreeing on their first
38 UTF-8 bytes collide: they get the same key in the same room with the
same flag, and after a successful call for the first question a call for
the second question is answered from the first question's cached
answer. -/
theorem c9_truncated_key_collision (room : Str) (ws : Bool) (q1 q2 : Str)
    (h38 : (utf8Str q1).take 38 = (utf8Str q2).take 38) :
    answerCacheKey room q1 ws = answerCacheKey room q2 ws
    ∧ ∀ (env : Env) (s0 : Store),
        (generateAnswer env q1 room ws s0).answer.error = false →
        generateAnswer env q2 room ws (generateAnswer env q1 room ws s0).store
          = ⟨(generateAnswer env q1 room ws s0).answer,
             (generateAnswer env q1 room ws s0).store, 0⟩ := by
  have hkey := answerCacheKey_eq_of_take38 room ws q1 q2 h38
  refine ⟨hkey, fun env s0 hok => ?_⟩
  have hc := generateAnswer_caches_of_success env q1 room ws s0 hok
  rw [hkey] at hc
  exact generateAnswer_hit env q2 room ws _ _ hc

theorem c9_witness :
    (utf8Str (List.replicate 38 'a')).take 38
        = (utf8Str (List.replicate 38 'a' ++ ['b'])).take 38
    ∧ answerCacheKey "room1".data (List.replicate 38 'a') true
        = answerCacheKey "room1".data (List.replicate 38 'a' ++ ['b']) true
    ∧ (generateAnswer envBase (List.replicate 38 'a') "room1".data true []).answer.error = false
    ∧ generateAnswer envBase (List.replicate 38 'a' ++ ['b']) "room1".data true
        (generateAnswer envBase (List.replicate 38 'a') "room1".data true []).store
      = ⟨(generateAnswer envBase (List.replicate 38 'a') "room1".data true []).answer,
         (generateAnswer envBase (List.replicate 38 'a') "room1".data true []).store, 0⟩ :=
  ⟨by decide,
   (c9_truncated_key_collision "room1".data true (List.replicate 38 'a')
     (List.replicate 38 'a' ++ ['b']) (by decide)).1,
   by decide,
   (c9_truncated_key_collision "room1".data true (List.replicate 38 'a')
     (List.replicate 38 'a' ++ ['b']) (by decide)).2 envBase [] (by decide)⟩

/-! ## C1: deletion and the answer cache -/

def c1DocId : Str := "64fa11aa22bb33cc44dd55ee".data

def c1Doc : Doc :=
  { id := c1DocId, originalName := "invoice.txt".data, fileType := ".txt".data
    status := "completed".data, chunks := [⟨"The invoice total is $450.".data, 0⟩] }

def c1Question : Str := "What is the invoice total?".data

def c1Key : Str := answerCacheKey "room1".data c1Question true

/-- An answer the generation path would have cached for `c1Question`,
citing the document by name. -/
def c1CachedAnswer : Answer :=
  { answer := "The invoice total is $450.".data
    sources := [⟨"invoice.txt".data, ".txt".data, .num (9/10)⟩]
    webResults := []
    webSearchEnabled := some true }

def c1Store : Store :=
  [(chunkKey c1DocId 0,
    .hash ⟨"The invoice total is $450.".data, [1], c1DocId, "invoice.txt".data⟩),
   (c1Key, .ans c1CachedAnswer)]

def c1Env : Env := { envBase with documents := [c1Doc] }

set_option maxRecDepth 4000 in
unseal Rat.mul Rat.inv Rat.add Rat.sub in
/-- C1 (code_bug): deleting the document removes its passage-cache keys,
but the answer-cache scan matches the raw document id against the
serialized answer — which only names the file — so the cached answer
citing the deleted document survives, and a later identical question is
answered from it (a cache hit, no generation call). -/
theorem c1_deletion_leaves_stale_answer :
    rhashGet (deleteDocument c1Env c1Store c1DocId).2 (chunkKey c1DocId 0) = none
    ∧ agetAns (deleteDocument c1Env c1Store c1DocId).2 c1Key = some c1CachedAnswer
    ∧ c1CachedAnswer.sources.map (fun s => s.filename) = [c1Doc.originalName]
    ∧ jsIncludes (stringifyAnswer c1CachedAnswer) c1DocId = false
    ∧ (deleteDocument c1Env c1Store c1DocId).1.documents = []
    ∧ generateAnswer (deleteDocument c1Env c1Store c1DocId).1 c1Question "room1".data true
        (deleteDocument c1Env c1Store c1DocId).2
      = ⟨c1CachedAnswer, (deleteDocument c1Env c1Store c1DocId).2, 0⟩ := by
  decide

/-! ## C5: shaping of sources -/

def c5Doc : Doc :=
  { id := "d5".data, originalName := "notes.txt".data, fileType := ".txt".data
    status := "completed".data
    chunks := [⟨"alpha text".data, 0⟩, ⟨"beta text".data, 1⟩] }

def c5Store : Store :=
  [(chunkKey "d5".data 0, .hash ⟨"alpha text".data, [1], "d5".data, "notes.txt".data⟩),
   (chunkKey "d5".data 1, .hash ⟨"beta text".data, [1], "d5".data, "notes.txt".data⟩)]

def c5Env : Env := { envBase with documents := [c5Doc] }

set_option maxRecDepth 4000 in
/-- C5 counterexample: two retrieved chunks of the same document produce
two source entries naming that same document — the attribution list is not
deduplicated. -/
theorem c5_counterexample :
    ((generateAnswer c5Env "hello".data "room1".data false c5Store).answer.sources.map
        (fun s => s.filename))
      = ["notes.txt".data, "notes.txt".data] := by
  decide

lemma generateAnswerMiss_sources (env : Env) (q : Str) (ws : Bool) (key : Str) (s0 : Store)
    (hok : (generateAnswerMiss env q ws key s0).answer.error = false) :
    (generateAnswerMiss env q ws key s0).answer.sources
        = shapeSources (retrieveRelevantChunks env s0 q 3)
    ∧ (generateAnswerMiss env q ws key s0).answer.webResults
        = shapeWeb (webResultsOf env q (isWebSearchRequest q) ws
            (retrieveRelevantChunks env s0 q 3)) := by
  simp only [generateAnswerMiss] at hok ⊢
  by_cases hc : retrieveRelevantChunks env s0 q = [] ∧
      webResultsOf env q (isWebSearchRequest q) ws (retrieveRelevantChunks env s0 q) = []
  · refine ⟨?_, ?_⟩
    · rw [if_pos hc, hc.1]
      rfl
    · rw [if_pos hc, hc.2]
      rfl
  · rw [if_neg hc] at hok ⊢
    cases hg : env.generate
        (promptOf (documentContextOf (retrieveRelevantChunks env s0 q))
          (webResultsOf env q (isWebSearchRequest q) ws (retrieveRelevantChunks env s0 q))
          (retrieveRelevantChunks env s0 q) q ws) with
    | error e =>
      rw [hg] at hok
      simp [apologyAnswer] at hok
    | ok t => exact ⟨rfl, rfl⟩

lemma shapeSources_round (env : Env) (store : Store) (q : Str) (topK : Nat) :
    ∀ src ∈ shapeSources (retrieveRelevantChunks env store q topK),
      ∃ k : ℤ, src.similarity = JSNum.num ((k : ℚ) / 100) := by
  intro src hsrc
  unfold shapeSources at hsrc
  rw [List.mem_map] at hsrc
  obtain ⟨c, hc, rfl⟩ := hsrc
  obtain ⟨x, hx⟩ := retrieve_sim_num env store q topK c hc
  refine ⟨⌊x * 100 + 1/2⌋, ?_⟩
  simp only [hx]
  rfl

/-- C5 (amended): on a cache miss, an answer that is not the degraded
apology carries exactly one source entry per retrieved chunk and exactly
one web attribution per web result, both in order with no deduplication
(`shapeSources`/`shapeWeb` are plain one-to-one maps), and every
similarity on the sources is rounded to two decimal places (an integer
number of hundredths). -/
theorem c5_sources_shape (env : Env) (q room : Str) (ws : Bool) (s0 : Store)
    (hmiss : agetAns s0 (answerCacheKey room q ws) = none)
    (hok : (generateAnswer env q room ws s0).answer.error = false) :
    (generateAnswer env q room ws s0).answer.sources
        = shapeSources (retrieveRelevantChunks env s0 q 3)
    ∧ (generateAnswer env q room ws s0).answer.webResults
        = shapeWeb (webResultsOf env q (isWebSearchRequest q) ws
            (retrieveRelevantChunks env s0 q 3))
    ∧ ∀ src ∈ (generateAnswer env q room ws s0).answer.sources,
        ∃ k : ℤ, src.similarity = JSNum.num ((k : ℚ) / 100) := by
  have hred : generateAnswer env q room ws s0
      = generateAnswerMiss env q ws (answerCacheKey room q ws) s0 := by
    unfold generateAnswer
    rw [hmiss]
  rw [hred] at hok ⊢
  obtain ⟨h1, h2⟩ := generateAnswerMiss_sources env q ws _ s0 hok
  refine ⟨h1, h2, ?_⟩
  rw [h1]
  exact shapeSources_round env s0 q 3

theorem c5_witness :
    agetAns ([] : Store) (answerCacheKey "room1".data "hi".data true) = none
    ∧ (generateAnswer envBase "hi".data "room1".data true []).answer.error = false
    ∧ ((generateAnswer envBase "hi".data "room1".data true []).answer.sources
          = shapeSources (retrieveRelevantChunks envBase [] "hi".data 3)
        ∧ (generateAnswer envBase "hi".data "room1".data true []).answer.webResults
            = shapeWeb (webResultsOf envBase "hi".data (isWebSearchRequest "hi".data) true
                (retrieveRelevantChunks envBase [] "hi".data 3))
        ∧ ∀ src ∈ (generateAnswer envBase "hi".data "room1".data true []).answer.sources,
            ∃ k : ℤ, src.similarity = JSNum.num ((k : ℚ) / 100)) :=
  ⟨rfl, by decide,
   c5_sources_shape envBase "hi".data "room1".data true [] rfl (by decide)⟩

/-! ## C6: the lexical fallback formula -/

unseal Rat.mul Rat.inv Rat.add Rat.sub in
/-- C6 counterexample: the code splits query words on the space character
only, not on whitespace.  For the tab-separated query `"alpha\tbeta"`
against the chunk `"alpha is here"`, the claim's whitespace-split formula
gives `1/2 * 0.7 = 0.35 > 0.1` (chunk kept), but the code sees a single
10-character word, scores `0`, and discards the chunk. -/
theorem c6_counterexample :
    fallbackSimilarity "alpha\tbeta".data "alpha is here".data ".txt".data "notes.txt".data
        = .num 0
    ∧ specLexScore "alpha\tbeta".data "alpha is here".data = .num (7/20)
    ∧ jsGtB (.num (7/20)) (.num (1/10)) = true
    ∧ retrieveRelevantChunks
        { envBase with documents := [⟨"d6".data, "notes.txt".data, ".txt".data,
            "completed".data, [⟨"alpha is here".data, 0⟩]⟩] } [] "alpha\tbeta".data 3
        = [] := by
  decide

/-- C6 (amended): for a chunk of a non-PDF document with no passage-cache
entry, retrieval keeps the chunk iff its space-split lexical score exceeds
0.1, and then carries exactly that score (0.9 on an exact lower-cased
substring match, else matched-fraction times 0.7 over space-split words of
length > 2); a chunk of a non-PDF document WITH a cache entry is kept with
its cosine similarity regardless of that similarity's value. -/
theorem c6_lexical_fallback (env : Env) (store : Store)
    (query docId name chunkText ft : Str)
    (hft : ft ≠ ".pdf".data) (hne : chunkText ≠ [])
    (hmiss : rhashGet store (chunkKey docId 0) = none) :
    retrieveRelevantChunks
        { env with documents := [⟨docId, name, ft, "completed".data, [⟨chunkText, 0⟩]⟩] }
        store query 3
      = (if jsGtB (specSpaceLexScore query chunkText) (.num (1/10)) then
          [⟨chunkText, specSpaceLexScore query chunkText, docId, name, ft⟩]
        else [])
    ∧ ∀ ch : CHash, ch.text ≠ [] → ∀ store2 : Store,
        rhashGet store2 (chunkKey docId 0) = some ch →
        retrieveRelevantChunks
            { env with documents := [⟨docId, name, ft, "completed".data, [⟨chunkText, 0⟩]⟩] }
            store2 query 3
          = [⟨ch.text, .num (cosineSimilarity env (generateEmbedding env query) ch.embedding),
              docId, name, ft⟩] := by
  constructor
  · rw [retrieve_single env store query ⟨docId, name, ft, "completed".data, [⟨chunkText, 0⟩]⟩ rfl rfl]
    simp only [candidateFor]
    rw [if_pos hft, hmiss]
    simp only [fallbackCandidate, List.getD, List.get?, Option.getD_some]
    rw [if_pos hne, fallbackSimilarity_eq_spec query chunkText ft name hft]
    by_cases hgt : jsGtB (specSpaceLexScore query chunkText) (.num (1/10)) = true
    · rw [if_pos hgt, if_pos hgt]
    · rw [if_neg hgt, if_neg hgt]
  · intro ch hch store2 hhit
    rw [retrieve_single env store2 query ⟨docId, name, ft, "completed".data, [⟨chunkText, 0⟩]⟩ rfl rfl]
    simp only [candidateFor]
    rw [if_pos hft]
    simp only [hhit]
    rw [if_pos hch]
    rfl

theorem c6_witness :
    (".txt".data : Str) ≠ ".pdf".data
    ∧ ("alpha is here".data : Str) ≠ []
    ∧ rhashGet ([] : Store) (chunkKey "d6w".data 0) = none
    ∧ retrieveRelevantChunks
        { envBase with documents := [⟨"d6w".data, "notes.txt".data, ".txt".data,
            "completed".data, [⟨"alpha is here".data, 0⟩]⟩] } [] "alpha beta".data 3
      = (if jsGtB (specSpaceLexScore "alpha beta".data "alpha is here".data) (.num (1/10)) then
          [⟨"alpha is here".data, specSpaceLexScore "alpha beta".data "alpha is here".data,
            "d6w".data, "notes.txt".data, ".txt".data⟩]
        else []) :=
  ⟨by decide, by decide, rfl,
   (c6_lexical_fallback envBase [] "alpha beta".data "d6w".data "notes.txt".data
     "alpha is here".data ".txt".data (by decide) (by decide) rfl).1⟩

/-! ## C10: the NaN score path -/

/-- C10: when the lower-cased query is not a substring of the chunk and
has no space-split word longer than two characters, the unguarded division
computes `0/0 = NaN`; `NaN > 0.1` is false, so the chunk is silently
excluded, and retrieval still returns (empty for a store with only that
chunk). -/
theorem c10_nan_score_excluded (query chunkText ft name : Str)
    (hnotsub : jsIncludes (jsLower chunkText) (jsLower query) = false)
    (hnowords : (jsSplitChar ' ' (jsLower query)).filter (fun w => 2 < w.length) = []) :
    fallbackSimilarity query chunkText ft name = .nan
    ∧ jsGtB (fallbackSimilarity query chunkText ft name) (.num (1/10)) = false
    ∧ ∀ (env : Env) (store : Store) (docId : Str),
        rhashGet store (chunkKey docId 0) = none →
        retrieveRelevantChunks
          { env with documents := [⟨docId, name, ft, "completed".data, [⟨chunkText, 0⟩]⟩] }
          store query 3 = [] := by
  have hnan : fallbackSimilarity query chunkText ft name = .nan := by
    simp only [fallbackSimilarity]
    rw [hnotsub, hnowords]
    simp only [Bool.false_eq_true, if_false, List.filter_nil, List.length_nil]
    split
    · split
      · rfl
      · rfl
    · rfl
  refine ⟨hnan, by rw [hnan]; rfl, fun env store docId hm => ?_⟩
  have hfb : fallbackCandidate query ⟨docId, name, ft, "completed".data, [⟨chunkText, 0⟩]⟩ 0
      = none := by
    simp only [fallbackCandidate, List.getD, List.get?, Option.getD_some]
    split
    · rw [hnan]
      rfl
    · rfl
  rw [retrieve_single env store query ⟨docId, name, ft, "completed".data, [⟨chunkText, 0⟩]⟩ rfl rfl]
  have hcf : candidateFor
      { env with documents := [⟨docId, name, ft, "completed".data, [⟨chunkText, 0⟩]⟩] }
      store query ⟨docId, name, ft, "completed".data, [⟨chunkText, 0⟩]⟩ 0 = none := by
    simp only [candidateFor]
    split
    · rw [hm]
      exact hfb
    · exact hfb
  rw [hcf]

theorem c10_witness :
    jsIncludes (jsLower "zzz".data) (jsLower "ab".data) = false
    ∧ (jsSplitChar ' ' (jsLower "ab".data)).filter (fun w => 2 < w.length) = []
    ∧ fallbackSimilarity "ab".data "zzz".data ".txt".data "n.txt".data = .nan
    ∧ retrieveRelevantChunks
        { envBase with documents := [⟨"d10".data, "n.txt".data, ".txt".data,
            "completed".data, [⟨"zzz".data, 0⟩]⟩] } [] "ab".data 3 = [] :=
  ⟨by decide, by decide,
   (c10_nan_score_excluded "ab".data "zzz".data ".txt".data "n.txt".data
     (by decide) (by decide)).1,
   (c10_nan_score_excluded "ab".data "zzz".data ".txt".data "n.txt".data
     (by decide) (by decide)).2.2 envBase [] "d10".data rfl⟩
